import Mathlib

/-
Verification of rusty_grep (src/main.rs): a grep-style utility that streams
each input file line by line, tests every line against a compiled regular
expression, and either emits the matching (or, inverted, non-matching) lines
with optional filename and line-number prefixes, or emits a per-file count.

The embedding below is a shallow translation of the functions of src/main.rs:
the regular-expression engine is abstracted as a predicate on lines (the
compiled Pattern of the design), file I/O is modelled by an explicit map from
paths to line-read results, and the shared output sink is the list of lines
written, in order.
-/

namespace RustyGrep

/-- Mirror of struct Cli in src/main.rs: the immutable invocation options
parsed from the command line. -/
structure Cli where
  show_header : Bool
  no_header : Bool
  insensitive : Bool
  invert_match : Bool
  show_line_numbers : Bool
  count_matching_lines : Bool
  regex : String
  file_names : List String
deriving Repr

/-- Mirror of fn should_write_line (src/main.rs line 120):
is_match != invert_match && !count_matching_lines. -/
def should_write_line (is_match invert_match count_matching_lines : Bool) : Bool :=
  (is_match != invert_match) && !count_matching_lines

/-- Mirror of fn build_prefix (src/main.rs lines 124-136): starts from the
empty string, appends "<file_name>:" when show_header && !no_header, then
appends "<line_number>:" when show_line_numbers. -/
def build_prefix (file_name : String) (show_header no_header show_line_numbers : Bool)
    (line_number : Nat) : String :=
  (if show_header && !no_header then file_name ++ ":" else "")
    ++ (if show_line_numbers then toString line_number ++ ":" else "")

/-- A line read from a BufReader: Ok with the decoded line (terminator
stripped) or Err with an I/O error message, mirroring io::Result of
reader.lines(). -/
abbrev LineRead := Except String String

/-- The state of the read loop of fn process_file_name when it finishes or
fails: the lines written to the output sink by the loop, the final values of
the local variables line_number and matching_lines, and the error the loop
returned early with, when any. -/
structure LoopResult where
  output : List String
  line_number : Nat
  matching_lines : Nat
  err : Option String
deriving Repr, DecidableEq

/-- The for-loop of fn process_file_name (src/main.rs lines 93-106): for each
line result, increment line_number, propagate a read error, test the line
against the pattern, increment matching_lines on a raw match, and write
prefix ++ line when should_write_line says so. The matcher argument stands
for the compiled regex: regex.is_match. -/
def readLoop (matcher : String → Bool) (file_name : String)
    (show_header no_header invert_match show_line_numbers count_matching_lines : Bool) :
    List LineRead → Nat → Nat → LoopResult
  | [], ln, ml => ⟨[], ln, ml, none⟩
  | r :: rest, ln, ml =>
    match r with
    | Except.error e => ⟨[], ln + 1, ml, some e⟩
    | Except.ok line =>
      let is_match := matcher line
      let ml2 := if is_match then ml + 1 else ml
      let res := readLoop matcher file_name show_header no_header invert_match
        show_line_numbers count_matching_lines rest (ln + 1) ml2
      let emitted := if should_write_line is_match invert_match count_matching_lines
        then [ build_prefix file_name show_header no_header show_line_numbers (ln + 1) ++ line]
        else []
      ⟨emitted ++ res.output, res.line_number, res.matching_lines, res.err⟩

/-- Mirror of fn process_file_name (src/main.rs lines 76-118) after the
reader has been opened: run the read loop from line_number = 0 and
matching_lines = 0; on a read error return it (the lines already written
stay in the output); otherwise, when count_matching_lines, write one summary
line, "<file_name>:<matching_lines>" if show_header and the bare count if
not. Returns the output sink contents and the io::Result. -/
def process_file_name (matcher : String → Bool) (file_name : String)
    (show_header no_header invert_match show_line_numbers count_matching_lines : Bool)
    (line_results : List LineRead) : List String × Option String :=
  let res := readLoop matcher file_name show_header no_header invert_match
    show_line_numbers count_matching_lines line_results 0 0
  match res.err with
  | some e => (res.output, some e)
  | none =>
    if count_matching_lines then
      if show_header then
        (res.output ++ [file_name ++ ":" ++ toString res.matching_lines], none)
      else
        (res.output ++ [toString res.matching_lines], none)
    else
      (res.output, none)

/-- The file system seen by fn open_reader: each path either opens to a
sequence of line-read results, or fails to open (none). -/
abbrev FileSys := String → Option (List LineRead)

/-- Mirror of fn open_reader (src/main.rs lines 138-141): File::open either
fails with a not-found / not-accessible error naming the path, or yields the
reader's line sequence. -/
def open_reader (fs : FileSys) (path : String) : Except String (List LineRead) :=
  match fs path with
  | none => Except.error ("No such file or directory: " ++ path)
  | some lines => Except.ok lines

/-- The observable result of a whole run: the lines written to stdout, the
paths on which File::open was attempted, in order, and the error main
returned with, when any. -/
structure RunResult where
  output : List String
  opened : List String
  err : Option String
deriving Repr, DecidableEq

/-- The for-loop of fn main (src/main.rs lines 62-64): process each file in
order; the question-mark operator on process_file_name propagates the first
open or read error, ending the loop. -/
def driverLoop (matcher : String → Bool) (show_header : Bool) (cli : Cli) (fs : FileSys) :
    List String → RunResult
  | [] => ⟨[], [], none⟩
  | f :: rest =>
    match open_reader fs f with
    | Except.error e => ⟨[], [f], some e⟩
    | Except.ok line_results =>
      let pr := process_file_name matcher f show_header cli.no_header cli.invert_match
        cli.show_line_numbers cli.count_matching_lines line_results
      match pr.2 with
      | some e => ⟨pr.1, [f], some e⟩
      | none =>
        let res := driverLoop matcher show_header cli fs rest
        ⟨pr.1 ++ res.output, f :: res.opened, res.err⟩

/-- Mirror of line 59 of src/main.rs: show_header = cli.show_header ||
cli.file_names.len() > 1. -/
def show_header_for (cli : Cli) : Bool :=
  cli.show_header || decide (cli.file_names.length > 1)

/-- Mirror of fn main (src/main.rs lines 51-67): compile the pattern first
(build_regex is modelled by the compile argument, since the regex engine is
an external crate); on a compile error return it before touching any file;
otherwise compute show_header and run the driver loop over the files. -/
def runMain (compile : String → Bool → Except String (String → Bool))
    (cli : Cli) (fs : FileSys) : RunResult :=
  match compile cli.regex cli.insensitive with
  | Except.error e => ⟨[], [], some e⟩
  | Except.ok matcher =>
    driverLoop matcher (show_header_for cli) cli fs cli.file_names

/-- Modelled from the spec (section 4.3): the effective, post-invert match
condition — a line satisfies it when its match result differs from the
invert flag. Used to compare the counter the code keeps against the counter
the spec describes. -/
def effectiveMatch (matcher : String → Bool) (invert_match : Bool) (line : String) : Bool :=
  matcher line != invert_match

/-- Modelled from the spec (sections 4.3 and 8): the number of lines of a
file satisfying the effective (post-invert) match condition. -/
def specCount (matcher : String → Bool) (invert_match : Bool) (lines : List String) : Nat :=
  (lines.filter (fun l => effectiveMatch matcher invert_match l)).length

/-- The raw match count the code actually keeps: the number of lines on
which the pattern matched, before any inversion. -/
def rawCount (matcher : String → Bool) (lines : List String) : Nat :=
  (lines.filter (fun l => matcher l)).length

/-! Helper lemmas about the read loop. -/

lemma readLoop_map_ok_err (m : String → Bool) (f : String) (sh nh iv sln co : Bool)
    (lines : List String) : ∀ (ln ml : Nat),
    (readLoop m f sh nh iv sln co (lines.map Except.ok) ln ml).err = none := by
  induction lines with
  | nil => intro ln ml; rfl
  | cons l rest ih => intro ln ml; simp [readLoop, ih]

lemma readLoop_map_ok_matching (m : String → Bool) (f : String) (sh nh iv sln co : Bool)
    (lines : List String) : ∀ (ln ml : Nat),
    (readLoop m f sh nh iv sln co (lines.map Except.ok) ln ml).matching_lines
      = ml + rawCount m lines := by
  induction lines with
  | nil => intro ln ml; simp [readLoop, rawCount]
  | cons l rest ih =>
    intro ln ml
    cases hml : m l with
    | false => simp [readLoop, ih, rawCount, List.filter_cons, hml]
    | true =>
      simp only [List.map_cons, readLoop, hml, if_true]
      rw [ih]
      simp [rawCount, List.filter_cons, hml]
      omega

lemma readLoop_count_output (m : String → Bool) (f : String) (sh nh iv sln : Bool)
    (ls : List LineRead) : ∀ (ln ml : Nat),
    (readLoop m f sh nh iv sln true ls ln ml).output = [] := by
  induction ls with
  | nil => intro ln ml; rfl
  | cons r rest ih =>
    intro ln ml
    cases r with
    | error e => rfl
    | ok line => simp [readLoop, should_write_line, ih]

lemma readLoop_split_error_err (m : String → Bool) (f : String) (sh nh iv sln co : Bool)
    (e : String) (rest : List LineRead) (pre : List String) : ∀ (ln ml : Nat),
    (readLoop m f sh nh iv sln co (pre.map Except.ok ++ Except.error e :: rest) ln ml).err
      = some e := by
  induction pre with
  | nil => intro ln ml; rfl
  | cons l pre ih => intro ln ml; simp [readLoop, ih]

lemma readLoop_split_error_output (m : String → Bool) (f : String) (sh nh iv sln co : Bool)
    (e : String) (rest : List LineRead) (pre : List String) : ∀ (ln ml : Nat),
    (readLoop m f sh nh iv sln co (pre.map Except.ok ++ Except.error e :: rest) ln ml).output
      = (readLoop m f sh nh iv sln co (pre.map Except.ok) ln ml).output := by
  induction pre with
  | nil => intro ln ml; simp [readLoop]
  | cons l pre ih => intro ln ml; simp [readLoop, ih]

/-! Theorems for the claims. -/

/-- C2: should_write_line is the pure decision function of the section 4.3
truth table: it returns true exactly when count_matching_lines is false and
is_match differs from invert_match; whenever count_matching_lines is true it
returns false. -/
theorem C2_should_write_line_truth_table :
    ∀ (is_match invert_match count_matching_lines : Bool),
      (should_write_line is_match invert_match count_matching_lines = true
        ↔ (count_matching_lines = false ∧ is_match ≠ invert_match))
      ∧ should_write_line is_match invert_match true = false := by
  decide

/-- C5: the prefix formatter satisfies the three composition equations of
section 8 — name/show/no-suppress/line-numbers at line 5 gives "name:5:",
all flags off gives "", and suppress overrides show — and in general the
result is the optional filename segment followed by the optional
line-number segment with no other separator. -/
theorem C5_prefix_composition (name : String) (sh nh sln : Bool) (n : Nat) :
    build_prefix name true false true 5 = name ++ ":5:"
    ∧ build_prefix name false false false 5 = ""
    ∧ build_prefix name true true false 5 = ""
    ∧ build_prefix name sh nh sln n
      = (if sh && !nh then name ++ ":" else "")
        ++ (if sln then toString n ++ ":" else "") := by
  refine ⟨?_, rfl, rfl, rfl⟩
  simp [ build_prefix, String.append_assoc]
  rfl

/-- C10: for an empty input file, processing emits nothing when
count_matching_lines is false, and emits exactly one line carrying the
count 0 — "<file_name>:0" when show_header is true, the bare "0"
otherwise — when count_matching_lines is true. -/
theorem C10_empty_file (m : String → Bool) (f : String) (sh nh iv sln : Bool) :
    process_file_name m f sh nh iv sln false [] = ([], none)
    ∧ process_file_name m f sh nh iv sln true []
      = ([if sh then f ++ ":0" else "0"], none) := by
  constructor
  · rfl
  · cases sh
    · simp [process_file_name, readLoop]
      rfl
    · simp [process_file_name, readLoop, String.append_assoc]
      rfl

/-- C1 counterexample: with invert_match on and count mode on, the code
reports "0" for the single non-matching line "world" — the raw, pre-invert
match count — while exactly 1 line satisfies the effective (post-invert)
condition, so the reported counter is not the post-invert count the claim
describes. -/
theorem C1_counterexample :
    process_file_name (fun l => l == "hello") "f" false false true false true
      [Except.ok "world"] = (["0"], none)
    ∧ specCount (fun l => l == "hello") true ["world"] = 1
    ∧ (process_file_name (fun l => l == "hello") "f" false false true false true
        [Except.ok "world"]).1
      ≠ [toString (specCount (fun l => l == "hello") true ["world"])] := by
  decide

/-- C1 amended: the per-file counter — and with it the count reported in
count mode — equals the number of lines on which the pattern matched BEFORE
any inversion, for every flag setting: invert_match does not change what is
counted, and the counter is maintained regardless of count_matching_lines. -/
theorem C1_counter_is_raw_match_count (m : String → Bool) (f : String)
    (sh nh iv sln co : Bool) (lines : List String) :
    (readLoop m f sh nh iv sln co (lines.map Except.ok) 0 0).matching_lines
      = rawCount m lines
    ∧ process_file_name m f false nh iv sln true (lines.map Except.ok)
      = ([toString (rawCount m lines)], none) := by
  constructor
  · simpa using readLoop_map_ok_matching m f sh nh iv sln co lines 0 0
  · simp [process_file_name, readLoop_map_ok_err, readLoop_count_output,
      readLoop_map_ok_matching]

/-- C4 counterexample: in count mode with show_header and no_header both
set, the code still prepends the filename to the summary line — the
suppress-header flag does not override show_header on the count line, so
the output is "f:0" where the claim requires the bare "0". -/
theorem C4_counterexample :
    process_file_name (fun l => l == "hello") "f" true true false false true []
      = (["f:0"], none)
    ∧ (["f:0"] : List String) ≠ ["0"] := by
  decide

/-- C4 amended: for every file read without error in count mode, exactly
one summary line is written — "<file_name>:<count>" whenever show_header is
true (no_header is ignored for the summary line), the bare count otherwise —
and no per-line output is produced; when count_matching_lines is false the
output is exactly the read loop's per-line output, with no finalize line. -/
theorem C4_count_mode_summary (m : String → Bool) (f : String) (sh nh iv sln : Bool)
    (lines : List String) :
    process_file_name m f sh nh iv sln true (lines.map Except.ok)
      = ([if sh then f ++ ":" ++ toString (rawCount m lines)
          else toString (rawCount m lines)], none)
    ∧ process_file_name m f sh nh iv sln false (lines.map Except.ok)
      = ((readLoop m f sh nh iv sln false (lines.map Except.ok) 0 0).output, none) := by
  constructor
  · cases sh <;>
      simp [process_file_name, readLoop_map_ok_err, readLoop_count_output,
        readLoop_map_ok_matching]
  · simp [process_file_name, readLoop_map_ok_err]

/-- C8: when a line read fails mid-stream, processing of the file stops
with that error — the line results after the failure are never examined —
and the output consists exactly of the lines already emitted for the
successfully read lines before the failure, with no rollback and no count
line. -/
theorem C8_midstream_read_failure (m : String → Bool) (f : String)
    (sh nh iv sln co : Bool) (pre : List String) (e : String) (rest : List LineRead) :
    process_file_name m f sh nh iv sln co (pre.map Except.ok ++ Except.error e :: rest)
      = ((readLoop m f sh nh iv sln co (pre.map Except.ok) 0 0).output, some e) := by
  simp [process_file_name, readLoop_split_error_err, readLoop_split_error_output]

lemma readLoop_output_header (m : String → Bool) (f : String) (iv sln co : Bool)
    (ls : List LineRead) : ∀ (ln ml : Nat) (L : String),
    L ∈ (readLoop m f true false iv sln co ls ln ml).output →
      ∃ r, L = f ++ ":" ++ r := by
  induction ls with
  | nil => intro ln ml L h; simp [readLoop] at h
  | cons r rest ih =>
    intro ln ml L h
    cases r with
    | error e => simp [readLoop] at h
    | ok line =>
      simp only [readLoop] at h
      rw [List.mem_append] at h
      rcases h with h1 | h2
      · split at h1
        · simp only [List.mem_singleton] at h1
          refine ⟨(if sln then toString (ln + 1) ++ ":" else "") ++ line, ?_⟩
          rw [h1]
          simp [ build_prefix, String.append_assoc]
        · simp at h1
      · exact ih _ _ _ h2

lemma process_output_header (m : String → Bool) (f : String) (iv sln co : Bool)
    (ls : List LineRead) : ∀ L ∈ (process_file_name m f true false iv sln co ls).1,
    ∃ r, L = f ++ ":" ++ r := by
  intro L h
  simp only [process_file_name] at h
  cases he : (readLoop m f true false iv sln co ls 0 0).err with
  | some e =>
    simp only [he] at h
    exact readLoop_output_header m f iv sln co ls 0 0 L h
  | none =>
    simp only [he] at h
    cases co with
    | false =>
      simp only [Bool.false_eq_true, if_false] at h
      exact readLoop_output_header m f iv sln false ls 0 0 L h
    | true =>
      simp only [if_true] at h
      rw [List.mem_append] at h
      rcases h with h1 | h2
      · exact readLoop_output_header m f iv sln true ls 0 0 L h1
      · simp only [List.mem_singleton] at h2
        refine ⟨toString (readLoop m f true false iv sln true ls 0 0).matching_lines, ?_⟩
        rw [h2]

lemma driverLoop_output_header (m : String → Bool) (cli : Cli) (fs : FileSys)
    (hnh : cli.no_header = false) (files : List String) :
    ∀ L ∈ (driverLoop m true cli fs files).output,
      ∃ fi, fi ∈ files ∧ ∃ r, L = fi ++ ":" ++ r := by
  induction files with
  | nil => intro L h; simp [driverLoop] at h
  | cons f rest ih =>
    intro L h
    simp only [driverLoop, hnh] at h
    cases ho : open_reader fs f with
    | error e => simp only [ho] at h; simp at h
    | ok lrs =>
      simp only [ho] at h
      cases hp : (process_file_name m f true false cli.invert_match
          cli.show_line_numbers cli.count_matching_lines lrs).2 with
      | some e =>
        simp only [hp] at h
        rcases process_output_header m f cli.invert_match cli.show_line_numbers
          cli.count_matching_lines lrs L h with ⟨r, hr⟩
        exact ⟨f, List.mem_cons_self f rest, r, hr⟩
      | none =>
        simp only [hp] at h
        rw [List.mem_append] at h
        rcases h with h1 | h2
        · rcases process_output_header m f cli.invert_match cli.show_line_numbers
            cli.count_matching_lines lrs L h1 with ⟨r, hr⟩
          exact ⟨f, List.mem_cons_self f rest, r, hr⟩
        · rcases ih L h2 with ⟨fi, hfi, r, hr⟩
          exact ⟨fi, List.mem_cons_of_mem f hfi, r, hr⟩

/-- A two-file invocation with no explicit header or suppress-header flag,
used to instantiate the whole-run theorems. -/
def cliTwoFiles : Cli :=
  ⟨false, false, false, false, false, false, "hello", ["a.txt", "b.txt"]⟩

/-- A file system on which both files of cliTwoFiles open and read cleanly. -/
def fsTwoFiles : FileSys := fun p =>
  if p == "a.txt" then some [Except.ok "hello"]
  else if p == "b.txt" then some [Except.ok "world", Except.ok "hello"]
  else none

/-- A file system on which the first file of cliTwoFiles fails to open while
the second holds a matching line. -/
def fsMissingFirst : FileSys := fun p =>
  if p == "a.txt" then none
  else if p == "b.txt" then some [Except.ok "hello"]
  else none

/-- A pattern compilation that succeeds with a concrete matcher. -/
def okCompile : String → Bool → Except String (String → Bool) :=
  fun _ _ => Except.ok (fun l => l == "hello")

/-- A pattern compilation that fails, standing for a malformed regular
expression handed to build_regex. -/
def badCompile : String → Bool → Except String (String → Bool) :=
  fun _ _ => Except.error "regex parse error"

/-- C6: the Driver computes show_header as the explicit flag OR more than
one file argument, and for an invocation with exactly two file arguments and
no explicit header or suppress-header flag, every line the run emits begins
with the name of one of the two files followed by a colon. -/
theorem C6_show_header_auto_enable
    (compile : String → Bool → Except String (String → Bool))
    (m : String → Bool) (cli : Cli) (fs : FileSys) (f1 f2 : String)
    (hc : compile cli.regex cli.insensitive = Except.ok m)
    (hf : cli.file_names = [f1, f2])
    (_hsh : cli.show_header = false) (hnh : cli.no_header = false) :
    show_header_for cli = (cli.show_header || decide (cli.file_names.length > 1))
    ∧ show_header_for cli = true
    ∧ ∀ L ∈ (runMain compile cli fs).output,
        (∃ r, L = f1 ++ ":" ++ r) ∨ (∃ r, L = f2 ++ ":" ++ r) := by
  have hsh2 : show_header_for cli = true := by
    simp [show_header_for, hf]
  refine ⟨rfl, hsh2, ?_⟩
  intro L h
  simp only [runMain, hc, hsh2, hf] at h
  rcases driverLoop_output_header m cli fs hnh [f1, f2] L h with ⟨fi, hfi, r, hr⟩
  simp only [List.mem_cons, List.mem_singleton, List.not_mem_nil, or_false] at hfi
  rcases hfi with h1 | h2
  · exact Or.inl ⟨r, h1 ▸ hr⟩
  · exact Or.inr ⟨r, h2 ▸ hr⟩

/-- C6 witness: the header auto-enable theorem applied to a concrete
two-file invocation. -/
theorem C6_show_header_auto_enable_witness :
    show_header_for cliTwoFiles = true :=
  (C6_show_header_auto_enable okCompile (fun l => l == "hello") cliTwoFiles fsTwoFiles
    "a.txt" "b.txt" rfl rfl rfl rfl).2.1

/-- C3 counterexample: on a batch of two files where the first fails to
open, the run ends with the open error, the second file is never opened,
and its matching line never reaches the output — the Driver does not
continue to the remaining files. -/
theorem C3_counterexample :
    runMain okCompile cliTwoFiles fsMissingFirst
      = ⟨[], ["a.txt"], some "No such file or directory: a.txt"⟩
    ∧ "b.txt" ∉ (runMain okCompile cliTwoFiles fsMissingFirst).opened
    ∧ (runMain okCompile cliTwoFiles fsMissingFirst).output = [] := by
  decide

/-- C3 amended: when opening one file fails, the driver loop stops at that
file with the open error: no output is produced for it and the remaining
files in the batch are not processed at all. -/
theorem C3_open_failure_aborts_run (m : String → Bool) (sh : Bool) (cli : Cli)
    (fs : FileSys) (f : String) (rest : List String) (h : fs f = none) :
    driverLoop m sh cli fs (f :: rest)
      = ⟨[], [f], some ("No such file or directory: " ++ f)⟩ := by
  simp [driverLoop, open_reader, h]

/-- C3 witness: the abort-on-open-failure theorem applied to the concrete
missing-first-file batch. -/
theorem C3_open_failure_aborts_run_witness :
    driverLoop (fun l => l == "hello") true cliTwoFiles fsMissingFirst
      ["a.txt", "b.txt"]
      = ⟨[], ["a.txt"], some "No such file or directory: a.txt"⟩ :=
  C3_open_failure_aborts_run (fun l => l == "hello") true cliTwoFiles fsMissingFirst
    "a.txt" ["b.txt"] rfl

/-- C7: when pattern compilation fails, the run terminates with the compile
error before any file I/O: no file is opened, no output line is produced,
and the result does not depend on the file system at all. -/
theorem C7_compile_failure_stops_run
    (compile : String → Bool → Except String (String → Bool))
    (cli : Cli) (fs : FileSys) (e : String)
    (h : compile cli.regex cli.insensitive = Except.error e) :
    runMain compile cli fs = ⟨[], [], some e⟩
    ∧ ∀ fs2 : FileSys, runMain compile cli fs = runMain compile cli fs2 := by
  constructor
  · simp [runMain, h]
  · intro fs2
    simp [runMain, h]

/-- C7 witness: the compile-failure theorem applied to a concrete failing
compilation over the two-file invocation. -/
theorem C7_compile_failure_stops_run_witness :
    runMain badCompile cliTwoFiles fsTwoFiles = ⟨[], [], some "regex parse error"⟩ :=
  (C7_compile_failure_stops_run badCompile cliTwoFiles fsTwoFiles
    "regex parse error" rfl).1

/-- C9: the run is deterministic — two runs with the same compilation
result, the same options and file systems presenting the same contents for
every path produce identical output, identical opens and an identical
error result. -/
theorem C9_deterministic
    (compile : String → Bool → Except String (String → Bool)) (cli : Cli)
    (fs1 fs2 : FileSys) (h : ∀ p, fs1 p = fs2 p) :
    runMain compile cli fs1 = runMain compile cli fs2 := by
  have hfs : fs1 = fs2 := funext h
  rw [hfs]

/-- C9 witness: determinism applied at a concrete run. -/
theorem C9_deterministic_witness :
    runMain okCompile cliTwoFiles fsTwoFiles
      = runMain okCompile cliTwoFiles fsTwoFiles :=
  C9_deterministic okCompile cliTwoFiles fsTwoFiles fsTwoFiles (fun _ => rfl)

end RustyGrep
